import Mathlib

/-!
Verification of the Zest dermatology biologic cost-optimization service.

The definitions below are a shallow embedding of the TypeScript source:
JavaScript numbers are modelled as rationals, possibly-undefined values as
`Option`, thrown exceptions as `Except String`, and the external
collaborators of the LLM decision engine (the ORM, the OpenAI API, the
knowledge-base retriever and the drug normalizer) as explicit parameters.
-/

namespace Zest

/-! ## JavaScript value helpers -/

/-- JavaScript truthiness of a possibly-undefined number:
`undefined` and `0` are falsy, every other number is truthy. -/
def jsTruthyNum : Option ℚ → Bool
  | none => false
  | some q => q != 0

/-- JavaScript `a || b` on possibly-undefined numbers: yields `a` when `a`
is truthy, otherwise `b`. -/
def jsOrNum (a b : Option ℚ) : Option ℚ :=
  if jsTruthyNum a then a else b

/-- JavaScript `a || b` on possibly-undefined integers (used for formulary
tiers): `undefined` and `0` are falsy. -/
def jsOrInt (a b : Option ℤ) : Option ℤ :=
  match a with
  | some n => if n ≠ 0 then a else b
  | none => b

/-- JavaScript `a || b` on possibly-undefined booleans: only `true` is
truthy. -/
def jsOrBool (a b : Option Bool) : Option Bool :=
  if a = some true then a else b

/-- Lower-casing as JavaScript `toLowerCase` does for ASCII letters. -/
def jsToLower (s : String) : String :=
  String.mk (s.data.map Char.toLower)

/-- Drop leading and trailing whitespace, as JavaScript `trim`. -/
def trimChars (l : List Char) : List Char :=
  ((l.dropWhile Char.isWhitespace).reverse.dropWhile Char.isWhitespace).reverse

/-- JavaScript `String.prototype.trim`. -/
def jsTrim (s : String) : String :=
  String.mk (trimChars s.data)

/-- Numeric value of a list of decimal digits. -/
def digitsVal (l : List Char) : ℕ :=
  l.foldl (fun acc c => 10 * acc + (c.toNat - 48)) 0

/-- Apply a leading minus sign. -/
def ratSign (neg : Bool) (q : ℚ) : ℚ :=
  if neg then -q else q

/-- Models the JavaScript `Number(string)` conversion on the string shapes
that occur in CSV cells: optional surrounding whitespace, an optional sign,
then a plain decimal literal. The empty or all-whitespace string converts
to `0`; any other string that is not a decimal literal is `NaN`, modelled
as `none`. -/
def jsNumberOfString (s : String) : Option ℚ :=
  let t := trimChars s.data
  if t = [] then some 0
  else
    let signBody : Bool × List Char :=
      match t with
      | '-' :: rest => (true, rest)
      | '+' :: rest => (false, rest)
      | l => (false, l)
    let intPart := signBody.2.takeWhile Char.isDigit
    let rest := signBody.2.dropWhile Char.isDigit
    match rest with
    | [] => if intPart.isEmpty then none else some (ratSign signBody.1 (digitsVal intPart))
    | '.' :: frac =>
      if frac.all Char.isDigit ∧ ¬(intPart.isEmpty ∧ frac.isEmpty) then
        some (ratSign signBody.1
          ((digitsVal intPart : ℚ) + (digitsVal frac : ℚ) / (10 ^ frac.length)))
      else none
    | _ => none

/-! ## Data model (per the Prisma schema as used by the sampled code) -/

/-- The `RecommendationType` enum from the Prisma client. -/
inductive RecommendationType
  | DOSE_REDUCTION
  | SWITCH_TO_BIOSIMILAR
  | SWITCH_TO_PREFERRED
  | THERAPEUTIC_SWITCH
  | OPTIMIZE_CURRENT
  deriving DecidableEq, Repr

/-- A formulary drug record, with the fields the decision engine reads.
Decimal columns that may be NULL are `Option ℚ`. -/
structure FormularyDrug where
  drugName : String
  genericName : String
  drugClass : String
  tier : ℤ
  requiresPA : Bool
  annualCostWAC : Option ℚ
  memberCopayT1 : Option ℚ
  deriving DecidableEq, Repr

/-- One recommendation as parsed from the LLM JSON reply
(`LLMRecommendation` in llm-decision-engine). -/
structure LLMRecommendation where
  type : RecommendationType
  drugName : Option String
  newDose : Option String
  newFrequency : Option String
  rationale : String
  monitoringPlan : Option String
  rank : ℕ
  deriving DecidableEq, Repr

/-- The result record of `calculateCostSavings`: every field is a JavaScript
number that may be `undefined`. -/
structure CostSavings where
  currentAnnualCost : Option ℚ
  recommendedAnnualCost : Option ℚ
  annualSavings : Option ℚ
  savingsPercent : Option ℚ
  currentMonthlyOOP : Option ℚ
  recommendedMonthlyOOP : Option ℚ
  deriving DecidableEq, Repr

/-- `calculateCostSavings` from the LLM decision engine. The first branch
handles dose reductions with a truthy current annual cost (fixed 25 percent
reduction estimate); the second handles any other recommendation that has a
target drug and a truthy current cost, computing savings only when the
target drug's annual cost is itself truthy. All other inputs leave the
derived fields undefined. -/
def calculateCostSavings (recommendation : LLMRecommendation)
    (currentDrug targetDrug : Option FormularyDrug) : CostSavings :=
  let currentAnnualCost : Option ℚ := currentDrug.bind FormularyDrug.annualCostWAC
  let derived : Option ℚ × Option ℚ × Option ℚ :=
    if recommendation.type = RecommendationType.DOSE_REDUCTION ∧ jsTruthyNum currentAnnualCost then
      (currentAnnualCost.map (fun c => c * (75 / 100)),
       currentAnnualCost.map (fun c => c * (25 / 100)),
       some 25)
    else if targetDrug.isSome ∧ jsTruthyNum currentAnnualCost then
      let recommendedAnnualCost : Option ℚ := targetDrug.bind FormularyDrug.annualCostWAC
      if jsTruthyNum recommendedAnnualCost then
        match currentAnnualCost, recommendedAnnualCost with
        | some c, some r => (some r, some (c - r), some ((c - r) / c * 100))
        | _, _ => (recommendedAnnualCost, none, none)
      else (recommendedAnnualCost, none, none)
    else (none, none, none)
  { currentAnnualCost := currentAnnualCost
    recommendedAnnualCost := derived.1
    annualSavings := derived.2.1
    savingsPercent := derived.2.2
    currentMonthlyOOP := (currentDrug.bind FormularyDrug.memberCopayT1).map (fun x => x / 12)
    recommendedMonthlyOOP :=
      jsOrNum ((targetDrug.bind FormularyDrug.memberCopayT1).map (fun x => x / 12))
        ((currentDrug.bind FormularyDrug.memberCopayT1).map (fun x => x / 12 * (75 / 100))) }

/-! ## Formulary CSV parser (lib/parsers/formulary-parser.ts) -/

/-- A CSV cell as seen by the JavaScript row object: a string value, a
number (papaparse leaves cells as strings, but the parser also feeds the
literal `3` to `parseNumber` when the tier column is absent), or
`undefined` when the row lacks the key. -/
inductive CellValue
  | str (s : String)
  | num (q : ℚ)
  | undefined
  deriving DecidableEq, Repr

/-- A CSV data row: the association of header names to cell strings. -/
abbrev CsvRow := List (String × String)

/-- Indexing `row[h]`: a missing key reads as `undefined`. -/
def cellAt (row : CsvRow) (h : String) : CellValue :=
  match row.lookup h with
  | some s => .str s
  | none => .undefined

/-- JavaScript `String(value)` on a cell: `undefined` prints as the string
"undefined". -/
def jsStringOf : CellValue → String
  | .str s => s
  | .num q => toString q
  | .undefined => "undefined"

/-- `parseNumber` from the formulary parser: null, undefined and the empty
string give `undefined`; otherwise `Number(value)`, with NaN giving
`undefined`. A cell already holding a number converts to itself. -/
def parseNumber : CellValue → Option ℚ
  | .undefined => none
  | .num q => some q
  | .str s => if s = "" then none else jsNumberOfString s

/-- `parseBoolean` from the formulary parser: the (lower-cased, trimmed)
printout must be one of yes / true / 1 / y. The cells of this model are
never JavaScript booleans, so the typeof-boolean fast path does not arise. -/
def parseBoolean (value : CellValue) : Bool :=
  (["yes", "true", "1", "y"]).contains (jsTrim (jsToLower (jsStringOf value)))

/-- A character consumed by the `[_\s]+` separator regex. -/
def isSepChar (c : Char) : Bool := c = '_' || c.isWhitespace

/-- Replace every maximal run of separator characters by a single space. -/
def collapseSeps : List Char → Bool → List Char
  | [], _ => []
  | c :: rest, prevSep =>
    if isSepChar c then
      (if prevSep then [] else [' ']) ++ collapseSeps rest true
    else c :: collapseSeps rest false

/-- `normalizeColumnName`: lower-case, trim, then collapse runs of
underscores and whitespace to single spaces. -/
def normalizeColumnName (col : String) : String :=
  String.mk (collapseSeps (trimChars ((jsToLower col).data)) false)

/-- The alias table `columnMappings` of the formulary parser. -/
def columnMappings : List (String × List String) :=
  [("drugName", ["drug name", "drugname", "drug", "medication", "brand name", "brand"]),
   ("genericName", ["generic name", "genericname", "generic"]),
   ("drugClass", ["drug class", "drugclass", "class", "category", "type"]),
   ("formulation", ["formulation", "dosage form", "form"]),
   ("strength", ["strength", "dose strength", "concentration"]),
   ("tier", ["tier", "formulary tier", "formulary_tier"]),
   ("requiresPA", ["requires pa", "pa required", "prior auth", "prior authorization", "pa"]),
   ("stepTherapyRequired", ["step therapy", "step_therapy", "step required"]),
   ("restrictions", ["restrictions", "restriction", "limits"]),
   ("quantityLimit", ["quantity limit", "quantity_limit", "qty limit", "ql"]),
   ("biosimilarOf", ["biosimilar of", "biosimilar_of", "reference product", "originator"]),
   ("fdaIndications", ["fda indications", "indications", "approved indications",
     "approved_indications"]),
   ("ndcCode", ["ndc code", "ndc", "ndc_code", "national drug code"])]

/-- For a field's alias list, the first alias found among the normalized
headers resolves to the original header at that position (the
`normalizedHeaders.indexOf(alias)` loop of `mapColumns`). -/
def findAliasColumn (headers : List String) : List String → Option String
  | [] => none
  | a :: rest =>
    match headers.find? (fun h => normalizeColumnName h = a) with
    | some h => some h
    | none => findAliasColumn headers rest

/-- `mapColumns`: resolve a canonical field name to the matching original
header, when one of its aliases is present. -/
def mapColumns (headers : List String) (field : String) : Option String :=
  match columnMappings.lookup field with
  | some aliases => findAliasColumn headers aliases
  | none => none

/-- Split a string at every character satisfying `p`, keeping empty pieces,
as JavaScript `split` with a character-class regex does. -/
def splitCharsAux (p : Char → Bool) : List Char → List Char → List (List Char)
  | [], acc => [acc.reverse]
  | c :: rest, acc =>
    if p c then acc.reverse :: splitCharsAux p rest []
    else splitCharsAux p rest (c :: acc)

/-- JavaScript `s.split(regex)` for a character-class regex. -/
def jsSplit (p : Char → Bool) (s : String) : List String :=
  (splitCharsAux p s.data []).map String.mk

/-- One accepted formulary row, exactly the object literal built in the row
loop of `parseFormularyCSV`. Cell values stored without conversion keep
their `CellValue` form; columns that may be absent from the upload carry
the `null` default as `none`. -/
structure ParsedFormularyRow where
  planId : String
  drugName : CellValue
  genericName : CellValue
  drugClass : String
  formulation : Option CellValue
  strength : Option CellValue
  tier : ℚ
  requiresPA : Option String
  stepTherapyRequired : Bool
  restrictions : Option CellValue
  quantityLimit : Option CellValue
  biosimilarOf : Option CellValue
  fdaIndications : List String
  ndcCode : Option CellValue
  deriving DecidableEq, Repr

/-- The body of the row loop of `parseFormularyCSV`, for one row. The
caller guarantees that the drug-name column resolved, so the `none` arm of
that field is unreachable there. -/
def parseFormularyRow (planId : String) (colMap : String → Option String)
    (row : CsvRow) : ParsedFormularyRow :=
  { planId := planId
    drugName :=
      match colMap "drugName" with
      | some h => cellAt row h
      | none => .undefined
    genericName :=
      match colMap "genericName" with
      | some h => cellAt row h
      | none => .str ""
    drugClass :=
      match colMap "drugClass" with
      | some h => jsStringOf (cellAt row h)
      | none => "OTHER"
    formulation := (colMap "formulation").map (cellAt row)
    strength := (colMap "strength").map (cellAt row)
    tier :=
      (parseNumber
        (match colMap "tier" with
         | some h => cellAt row h
         | none => .num 3)).getD 3
    requiresPA := (colMap "requiresPA").map (fun h => jsStringOf (cellAt row h))
    stepTherapyRequired :=
      match colMap "stepTherapyRequired" with
      | some h => parseBoolean (cellAt row h)
      | none => false
    restrictions := (colMap "restrictions").map (cellAt row)
    quantityLimit := (colMap "quantityLimit").map (cellAt row)
    biosimilarOf := (colMap "biosimilarOf").map (cellAt row)
    fdaIndications :=
      match colMap "fdaIndications" with
      | some h =>
        ((jsSplit (fun c => c = ';' || c = ',') (jsStringOf (cellAt row h))).map jsTrim).filter
          (fun s => 0 < s.length)
      | none => []
    ndcCode := (colMap "ndcCode").map (cellAt row) }

/-- The headers of a batch: `Object.keys(data[0])` (empty for an empty
batch, though the source only reads them after the emptiness check). -/
def headersOf (data : List CsvRow) : List String :=
  (data.headD []).map Prod.fst

/-- `parseFormularyCSV`: an empty batch and a batch without a resolvable
drug-name column each yield a single row-0 error and no accepted rows;
otherwise every row is parsed. The per-row `try` body performs no throwing
operation, so in this model the row loop records no error. -/
def parseFormularyCSV (data : List CsvRow) (planId : String) :
    List ParsedFormularyRow × List (ℕ × String) :=
  if data.isEmpty then ([], [(0, "No data provided")])
  else
    let colMap := mapColumns (headersOf data)
    if (colMap "drugName").isNone then
      ([], [(0, "Required column \"Drug Name\" not found")])
    else
      (data.map (parseFormularyRow planId colMap), [])

/-! ## LLM decision engine (lib/llm-decision-engine.ts) -/

/-- The triage JSON object returned by the first LLM call. -/
structure TriageResult where
  canDoseReduce : Bool
  shouldSwitch : Bool
  quadrant : String
  reasoning : String
  deriving DecidableEq, Repr

/-- A current-biologic record of a patient, as read by the engine. -/
structure CurrentBiologic where
  drugName : String
  deriving DecidableEq, Repr

/-- A contraindication record (only its type string is read). -/
structure Contraindication where
  type : String
  deriving DecidableEq, Repr

/-- An insurance plan with its formulary, as included by the patient
query. -/
structure InsurancePlan where
  formularyDrugs : List FormularyDrug
  deriving DecidableEq, Repr

/-- The patient record returned by `prisma.patient.findUnique`, with the
relations the engine reads. -/
structure PatientRecord where
  currentBiologics : List CurrentBiologic
  contraindications : List Contraindication
  plan : Option InsurancePlan
  deriving DecidableEq, Repr

/-- `AssessmentInput` from the engine. -/
structure AssessmentInput where
  patientId : String
  diagnosis : String
  hasPsoriaticArthritis : Bool
  dlqiScore : ℚ
  monthsStable : ℚ
  additionalNotes : Option String
  deriving DecidableEq, Repr

/-- The external collaborators of `generateLLMRecommendations`, fixed for
one call: the ORM lookup result, the drug normalizer, the outcome of the
two LLM calls (an `Except.error` is a thrown or malformed reply) and the
retrieved evidence snippets. -/
structure LLMEnv where
  patient : Option PatientRecord
  normalizeToGeneric : String → String
  triageResponse : Except String TriageResult
  evidence : List String
  llmResponse : Except String (List LLMRecommendation)

/-- `getLLMRecommendationSuggestions`: a failed or malformed LLM call is
re-thrown, and a structurally valid reply whose recommendations array is
empty raises the dedicated error; otherwise the recommendations pass
through. -/
def getLLMRecommendationSuggestions
    (llmResponse : Except String (List LLMRecommendation)) :
    Except String (List LLMRecommendation) :=
  match llmResponse with
  | .error e => .error e
  | .ok recommendations =>
    if recommendations.length = 0 then .error "LLM returned no recommendations"
    else .ok recommendations

/-- One formatted recommendation of the engine's output, with the cost
projection spread into `cost`. -/
structure FormattedRecommendation where
  rank : ℕ
  type : RecommendationType
  drugName : String
  newDose : Option String
  newFrequency : Option String
  cost : CostSavings
  rationale : String
  evidenceSources : List String
  monitoringPlan : Option String
  tier : Option ℤ
  requiresPA : Option Bool
  contraindicated : Bool
  deriving DecidableEq, Repr

/-- The engine's return value. -/
structure GenerateResult where
  isStable : Bool
  isFormularyOptimal : Bool
  quadrant : String
  recommendations : List FormattedRecommendation
  deriving DecidableEq, Repr

/-- `generateLLMRecommendations`: patient and plan must exist, the patient
must have a current biologic, then triage, retrieval and the
recommendation call run in order (any thrown error propagates), and each
recommendation is priced and formatted, keeping at most three. -/
def generateLLMRecommendations (env : LLMEnv) (assessment : AssessmentInput) :
    Except String GenerateResult :=
  match env.patient with
  | none => .error "Patient or plan not found"
  | some patient =>
    match patient.plan with
    | none => .error "Patient or plan not found"
    | some plan =>
      match patient.currentBiologics.head? with
      | none => .error "No current biologic found for patient"
      | some currentBiologic =>
        let genericDrugName := env.normalizeToGeneric currentBiologic.drugName
        let currentFormularyDrug := plan.formularyDrugs.find?
          (fun drug => jsToLower drug.drugName = jsToLower genericDrugName)
        match env.triageResponse with
        | .error e => .error e
        | .ok triage =>
          let evidence := env.evidence
          match getLLMRecommendationSuggestions env.llmResponse with
          | .error e => .error e
          | .ok llmRecs =>
            let recommendations := llmRecs.map (fun rec =>
              let targetDrug :=
                match rec.drugName with
                | some n => plan.formularyDrugs.find?
                    (fun d => jsToLower d.drugName = jsToLower n)
                | none => none
              let costData := calculateCostSavings rec currentFormularyDrug targetDrug
              ({ rank := rec.rank
                 type := rec.type
                 drugName := rec.drugName.getD genericDrugName
                 newDose := rec.newDose
                 newFrequency := rec.newFrequency
                 cost := costData
                 rationale := rec.rationale
                 evidenceSources := (evidence.take 3).map
                   (fun e => String.mk (e.data.takeWhile (fun c => c ≠ ':')))
                 monitoringPlan := rec.monitoringPlan
                 tier := jsOrInt (targetDrug.map FormularyDrug.tier)
                   (currentFormularyDrug.map FormularyDrug.tier)
                 requiresPA := jsOrBool (targetDrug.map FormularyDrug.requiresPA)
                   (currentFormularyDrug.map FormularyDrug.requiresPA)
                 contraindicated := false } : FormattedRecommendation))
            .ok { isStable := triage.canDoseReduce
                  isFormularyOptimal := !triage.shouldSwitch
                  quadrant := triage.quadrant
                  recommendations := recommendations.take 3 }

/-! ## Assessment creation endpoint (app/api/assessments POST) -/

/-- The handler's HTTP outcome: the success JSON with the assessment id, or
the 500 error produced by the surrounding catch. -/
inductive PostResponse
  | success (assessmentId : String)
  | serverError (message : String)
  deriving DecidableEq, Repr

/-- The assessment POST handler's recommendation step: the LLM engine is
chosen exactly when OPENAI_API_KEY is set, otherwise the rule-based
`generateRecommendations` from lib/decision-engine.ts (not under src/,
represented by its outcome `ruleResult`); any error thrown by either
engine reaches the handler's catch and is returned as a 500, with no
fallback from one engine to the other. -/
def assessmentPOST (useLLM : Bool) (env : LLMEnv)
    (ruleResult : Except String GenerateResult)
    (assessment : AssessmentInput) (assessmentId : String) : PostResponse :=
  let result :=
    if useLLM then generateLLMRecommendations env assessment else ruleResult
  match result with
  | .ok _ => .success assessmentId
  | .error m => .serverError m

/-! ## Rule-based triage (modelled from the spec) -/

/-- Modelled from the spec: the stable-enough-to-dose-reduce test of the
deterministic rule-based triage in lib/decision-engine.ts, which is
imported by the assessment POST handler but is not present under src/.
Spec section 4.1: the patient is stable enough to reduce dose exactly when
the DLQI score is at most 5 and the months stable are at least 6. -/
def ruleTriageCanDoseReduce (dlqiScore monthsStable : ℚ) : Bool :=
  decide (dlqiScore ≤ 5) && decide (6 ≤ monthsStable)

/-! ## Admin data DELETE endpoint (app/api/admin/data route.ts) -/

/-- The admin-visible tables, each as the list of its record ids. -/
structure AdminDb where
  knowledge : List String
  formulary : List String
  claims : List String
  uploads : List String
  deriving DecidableEq, Repr

/-- An ORM delete by id: removes the record, or throws when no record with
that id exists. -/
def prismaDeleteById (table : List String) (id : String) :
    Except String (List String) :=
  if id ∈ table then .ok (table.erase id)
  else .error "Record to delete does not exist."

/-- The DELETE handler's HTTP outcome. -/
inductive DeleteResponse
  | success (db : AdminDb)
  | badRequest (message : String)
  | serverError (message : String)
  deriving DecidableEq, Repr

/-- The admin DELETE handler: `type` and `id` are the query parameters
(absent parameters read as null, modelled `none`); a falsy id (absent or
empty) yields the ID-required 400, the three handled types delete by id,
and any other type (including uploads) yields the invalid-type 400. A
thrown ORM error is caught and returned as a 500. -/
def adminDELETE (db : AdminDb) (type id : Option String) : DeleteResponse :=
  if id = none ∨ id = some "" then .badRequest "ID required"
  else
    let i := id.getD ""
    if type = some "knowledge" then
      match prismaDeleteById db.knowledge i with
      | .ok t => .success { db with knowledge := t }
      | .error m => .serverError m
    else if type = some "formulary" then
      match prismaDeleteById db.formulary i with
      | .ok t => .success { db with formulary := t }
      | .error m => .serverError m
    else if type = some "claims" then
      match prismaDeleteById db.claims i with
      | .ok t => .success { db with claims := t }
      | .error m => .serverError m
    else .badRequest "Invalid type"

/-! ## Concrete sample inputs used by witnesses and counterexamples -/

/-- A dose-reduction recommendation as the LLM would return it. -/
def doseRec : LLMRecommendation :=
  { type := RecommendationType.DOSE_REDUCTION
    drugName := none
    newDose := some "40 mg"
    newFrequency := some "every 4 weeks"
    rationale := "stable disease supports interval extension"
    monitoringPlan := some "DLQI at 12 weeks"
    rank := 1 }

/-- A switch recommendation as the LLM would return it. -/
def switchRec : LLMRecommendation :=
  { type := RecommendationType.SWITCH_TO_BIOSIMILAR
    drugName := some "Biosim"
    newDose := none
    newFrequency := none
    rationale := "biosimilar at lower annual cost"
    monitoringPlan := none
    rank := 1 }

/-- A current formulary drug with a 44000 annual cost. -/
def currentDrug44k : FormularyDrug :=
  { drugName := "Humira"
    genericName := "adalimumab"
    drugClass := "TNF"
    tier := 4
    requiresPA := true
    annualCostWAC := some 44000
    memberCopayT1 := none }

/-- A target formulary drug with a 30000 annual cost. -/
def targetDrug30k : FormularyDrug :=
  { drugName := "Biosim"
    genericName := "adalimumab-biosim"
    drugClass := "TNF"
    tier := 2
    requiresPA := false
    annualCostWAC := some 30000
    memberCopayT1 := none }

/-- A target formulary drug whose annual cost is present and equal to 0. -/
def freeTargetDrug : FormularyDrug :=
  { drugName := "Biosim"
    genericName := "adalimumab-biosim"
    drugClass := "TNF"
    tier := 1
    requiresPA := false
    annualCostWAC := some 0
    memberCopayT1 := none }

/-- A patient on one biologic, enrolled in a plan. -/
def patientWithBiologic : PatientRecord :=
  { currentBiologics := [{ drugName := "Humira" }]
    contraindications := []
    plan := some { formularyDrugs := [currentDrug44k, targetDrug30k] } }

/-- A patient found in the database, with a plan but no current biologic. -/
def patientNoBiologic : PatientRecord :=
  { currentBiologics := []
    contraindications := []
    plan := some { formularyDrugs := [currentDrug44k] } }

/-- A call environment in which the LLM recommendation reply parses to an
empty recommendations array. -/
def llmZeroRecsEnv : LLMEnv :=
  { patient := some patientWithBiologic
    normalizeToGeneric := fun s => s
    triageResponse := .ok
      { canDoseReduce := true
        shouldSwitch := true
        quadrant := "stable_non_formulary"
        reasoning := "stable on a high-tier drug" }
    evidence := []
    llmResponse := .ok [] }

/-- A call environment for the patient without a current biologic. -/
def noBiologicEnv : LLMEnv :=
  { patient := some patientNoBiologic
    normalizeToGeneric := fun s => s
    triageResponse := .ok
      { canDoseReduce := false
        shouldSwitch := false
        quadrant := "unstable_formulary_aligned"
        reasoning := "" }
    evidence := []
    llmResponse := .ok [switchRec] }

/-- A concrete assessment input. -/
def sampleAssessment : AssessmentInput :=
  { patientId := "p1"
    diagnosis := "PSORIASIS"
    hasPsoriaticArthritis := false
    dlqiScore := 3
    monthsStable := 12
    additionalNotes := none }

/-- One recommendation as the rule-based fallback engine would format it. -/
def ruleFallbackRec : FormattedRecommendation :=
  { rank := 1
    type := RecommendationType.SWITCH_TO_BIOSIMILAR
    drugName := "Biosim"
    newDose := none
    newFrequency := none
    cost := calculateCostSavings switchRec (some currentDrug44k) (some targetDrug30k)
    rationale := "biosimilar at lower annual cost"
    evidenceSources := []
    monitoringPlan := none
    tier := some 2
    requiresPA := some false
    contraindicated := false }

/-- The outcome the rule-based engine would have produced for the same
patient: one recommendation, no error. -/
def ruleFallbackResult : GenerateResult :=
  { isStable := true
    isFormularyOptimal := false
    quadrant := "stable_non_formulary"
    recommendations := [ruleFallbackRec] }

/-- An admin database holding one record of each type. -/
def sampleDb : AdminDb :=
  { knowledge := ["k1"]
    formulary := ["f1"]
    claims := ["c1"]
    uploads := ["u1"] }

/-- A two-row batch none of whose headers is a drug-name alias. -/
def noAliasBatch : List CsvRow :=
  [[("Price", "100"), ("Cost", "1")], [("Price", "200"), ("Cost", "2")]]

/-- A well-formed two-row batch with drug-name and tier columns. -/
def okBatch : List CsvRow :=
  [[("Drug Name", "Humira"), ("Tier", "2")], [("Drug Name", "Cosentyx"), ("Tier", "1")]]

/-- A one-row batch whose tier cell holds the out-of-range value 99. -/
def tier99Batch : List CsvRow :=
  [[("Drug Name", "Humira"), ("Tier", "99")]]

/-- A one-row batch with no tier column at all. -/
def tierAbsentBatch : List CsvRow :=
  [[("Drug Name", "Humira")]]

/-- A one-row batch whose tier cell does not parse as a number. -/
def tierTextBatch : List CsvRow :=
  [[("Drug Name", "Humira"), ("Tier", "high")]]

/-! ## Theorems -/

/-- C2: for every dose-reduction recommendation whose current drug has a
present, nonzero annual cost, the cost calculator yields a recommended
annual cost of exactly 75 percent of it, annual savings of exactly
25 percent of it, and a savings percent of exactly 25, regardless of which
drugs are involved. The degenerate zero-or-missing-cost inputs are the
subject of C4. -/
theorem dose_reduction_cost_quarter (rec : LLMRecommendation)
    (currentDrug targetDrug : Option FormularyDrug) (c : ℚ)
    (htype : rec.type = RecommendationType.DOSE_REDUCTION)
    (hcost : currentDrug.bind FormularyDrug.annualCostWAC = some c) (hc : c ≠ 0) :
    (calculateCostSavings rec currentDrug targetDrug).recommendedAnnualCost = some (c * (75 / 100))
    ∧ (calculateCostSavings rec currentDrug targetDrug).annualSavings = some (c * (25 / 100))
    ∧ (calculateCostSavings rec currentDrug targetDrug).savingsPercent = some 25 := by
  simp [calculateCostSavings, hcost, htype, jsTruthyNum, hc]

/-- Witness for C2: the dose-reduction pricing at a 44000 current annual
cost gives 33000 recommended, 11000 saved, 25 percent. -/
theorem dose_reduction_cost_quarter_witness :
    (calculateCostSavings doseRec (some currentDrug44k) none).recommendedAnnualCost = some 33000
    ∧ (calculateCostSavings doseRec (some currentDrug44k) none).annualSavings = some 11000
    ∧ (calculateCostSavings doseRec (some currentDrug44k) none).savingsPercent = some 25 := by
  have h := dose_reduction_cost_quarter doseRec (some currentDrug44k) none 44000 rfl rfl
    (by norm_num)
  refine ⟨?_, ?_, h.2.2⟩
  · rw [h.1]; norm_num
  · rw [h.2.1]; norm_num

/-- C3 (amended): for every switch recommendation where the current and the
target drug's annual costs are both present and nonzero, the calculator
returns the target cost as recommended cost, current minus recommended as
savings, and savings over current times 100 as the percent. When either
present cost is zero the calculator instead leaves the savings fields
undefined (see the counterexample). -/
theorem switch_cost_formula (rec : LLMRecommendation)
    (currentDrug targetDrug : FormularyDrug) (c r : ℚ)
    (htype : rec.type = RecommendationType.SWITCH_TO_BIOSIMILAR
      ∨ rec.type = RecommendationType.SWITCH_TO_PREFERRED
      ∨ rec.type = RecommendationType.THERAPEUTIC_SWITCH)
    (hc : currentDrug.annualCostWAC = some c) (hc0 : c ≠ 0)
    (hr : targetDrug.annualCostWAC = some r) (hr0 : r ≠ 0) :
    (calculateCostSavings rec (some currentDrug) (some targetDrug)).recommendedAnnualCost = some r
    ∧ (calculateCostSavings rec (some currentDrug) (some targetDrug)).annualSavings = some (c - r)
    ∧ (calculateCostSavings rec (some currentDrug) (some targetDrug)).savingsPercent
        = some ((c - r) / c * 100) := by
  have ht : ¬ rec.type = RecommendationType.DOSE_REDUCTION := by
    rcases htype with h | h | h <;> simp [h]
  simp [calculateCostSavings, hc, hr, ht, jsTruthyNum, hc0, hr0]

/-- Counterexample to C3 as stated: with both annual costs present
(current 44000, target 0) the calculator leaves annualSavings undefined
instead of returning current minus recommended. -/
theorem switch_zero_target_counterexample :
    freeTargetDrug.annualCostWAC = some 0
    ∧ currentDrug44k.annualCostWAC = some 44000
    ∧ (calculateCostSavings switchRec (some currentDrug44k) (some freeTargetDrug)).annualSavings
        ≠ some (44000 - 0) := by
  refine ⟨rfl, rfl, ?_⟩
  simp [calculateCostSavings, switchRec, currentDrug44k, freeTargetDrug, jsTruthyNum]

/-- Witness for C3: current cost 44000 and target cost 30000 give savings
14000 and a savings percent of 350/11, which lies strictly between 31.8
and 31.9. -/
theorem switch_cost_formula_witness :
    (calculateCostSavings switchRec (some currentDrug44k) (some targetDrug30k)).recommendedAnnualCost
      = some 30000
    ∧ (calculateCostSavings switchRec (some currentDrug44k) (some targetDrug30k)).annualSavings
      = some 14000
    ∧ (calculateCostSavings switchRec (some currentDrug44k) (some targetDrug30k)).savingsPercent
      = some (350 / 11)
    ∧ (318 : ℚ) / 10 < 350 / 11 ∧ (350 : ℚ) / 11 < 319 / 10 := by
  have h := switch_cost_formula switchRec currentDrug44k targetDrug30k 44000 30000
    (Or.inl rfl) rfl (by norm_num) rfl (by norm_num)
  refine ⟨h.1, ?_, ?_, by norm_num, by norm_num⟩
  · rw [h.2.1]; norm_num
  · rw [h.2.2]; norm_num

/-- C4: whenever the current drug is absent, or its annual cost is missing
or zero, the (total, hence non-throwing) cost calculator leaves all three
derived savings fields undefined; no division by the current cost is
reached. -/
theorem missing_current_cost_short_circuits (rec : LLMRecommendation)
    (currentDrug targetDrug : Option FormularyDrug)
    (h : currentDrug.bind FormularyDrug.annualCostWAC = none
       ∨ currentDrug.bind FormularyDrug.annualCostWAC = some 0) :
    (calculateCostSavings rec currentDrug targetDrug).recommendedAnnualCost = none
    ∧ (calculateCostSavings rec currentDrug targetDrug).annualSavings = none
    ∧ (calculateCostSavings rec currentDrug targetDrug).savingsPercent = none := by
  rcases h with h | h <;> simp [calculateCostSavings, h, jsTruthyNum]

/-- Witness for C4: an absent current drug leaves every savings field
undefined. -/
theorem missing_current_cost_short_circuits_witness :
    (calculateCostSavings switchRec none (some targetDrug30k)).recommendedAnnualCost = none
    ∧ (calculateCostSavings switchRec none (some targetDrug30k)).annualSavings = none
    ∧ (calculateCostSavings switchRec none (some targetDrug30k)).savingsPercent = none :=
  missing_current_cost_short_circuits switchRec none (some targetDrug30k) (Or.inl rfl)

/-- C1 (code bug): for a patient who has a current biologic, with the LLM
engine selected and the LLM returning zero recommendations, the POST
handler surfaces the thrown error as a 500 response instead of falling
back to the rule-based generator, even though that generator would have
produced a recommendation. -/
theorem llm_failure_surfaces_500 :
    patientWithBiologic.currentBiologics ≠ []
    ∧ 1 ≤ ruleFallbackResult.recommendations.length
    ∧ assessmentPOST true llmZeroRecsEnv (.ok ruleFallbackResult) sampleAssessment "a1"
        = .serverError "LLM returned no recommendations" :=
  ⟨by decide, by decide, rfl⟩

/-- C8: when the patient is found and has a plan but no current biologic,
the recommendation generator throws the dedicated error rather than
returning an empty recommendation list. -/
theorem no_biologic_signals_error (env : LLMEnv) (assessment : AssessmentInput)
    (p : PatientRecord) (pl : InsurancePlan)
    (hp : env.patient = some p) (hpl : p.plan = some pl)
    (hbio : p.currentBiologics = []) :
    generateLLMRecommendations env assessment
      = .error "No current biologic found for patient" := by
  simp [generateLLMRecommendations, hp, hpl, hbio]

/-- Witness for C8: a concrete biologic-free patient makes the generator
throw. -/
theorem no_biologic_signals_error_witness :
    generateLLMRecommendations noBiologicEnv sampleAssessment
      = .error "No current biologic found for patient" :=
  no_biologic_signals_error noBiologicEnv sampleAssessment patientNoBiologic
    { formularyDrugs := [currentDrug44k] } rfl rfl rfl

/-- C6: the rule-based triage classifies the patient as stable enough to
dose-reduce exactly when the DLQI score is at most 5 and the months stable
are at least 6, and as not stable enough for every other combination. -/
theorem canDoseReduce_iff_dlqi_and_stability (dlqiScore monthsStable : ℚ) :
    ruleTriageCanDoseReduce dlqiScore monthsStable = true ↔
      dlqiScore ≤ 5 ∧ 6 ≤ monthsStable := by
  simp [ruleTriageCanDoseReduce]

/-- Counterexample to C9 as stated: a DELETE for an existing uploads record
is answered with the invalid-type 400 error, not success. -/
theorem delete_uploads_rejected_counterexample :
    sampleDb.uploads = ["u1"]
    ∧ adminDELETE sampleDb (some "uploads") (some "u1") = .badRequest "Invalid type" := by
  decide

/-- C9 (amended): for each resource type among knowledge, formulary and
claims, the admin DELETE endpoint given that type and the id of an
existing record deletes the record and responds with success; the uploads
type is not handled and is answered with the invalid-type error (see the
counterexample). -/
theorem delete_supported_types_succeed (db : AdminDb) (i : String) (hi : i ≠ "") :
    (i ∈ db.knowledge → adminDELETE db (some "knowledge") (some i)
        = .success { db with knowledge := db.knowledge.erase i })
    ∧ (i ∈ db.formulary → adminDELETE db (some "formulary") (some i)
        = .success { db with formulary := db.formulary.erase i })
    ∧ (i ∈ db.claims → adminDELETE db (some "claims") (some i)
        = .success { db with claims := db.claims.erase i }) := by
  refine ⟨fun hm => ?_, fun hm => ?_, fun hm => ?_⟩ <;>
    simp [adminDELETE, prismaDeleteById, hi, hm]

/-- Witness for C9: deleting the knowledge record k1 succeeds and removes
it. -/
theorem delete_supported_types_succeed_witness :
    ("k1" : String) ≠ ""
    ∧ "k1" ∈ sampleDb.knowledge
    ∧ adminDELETE sampleDb (some "knowledge") (some "k1")
        = .success { sampleDb with knowledge := sampleDb.knowledge.erase "k1" } :=
  ⟨by decide, by decide,
    (delete_supported_types_succeed sampleDb "k1" (by decide)).1 (by decide)⟩

/-- Counterexample to C5 as stated: a two-row batch without a drug-name
column yields zero accepted rows and one error, so accepted plus errors is
1, not the 2 input rows. -/
theorem rows_plus_errors_counterexample :
    (parseFormularyCSV noAliasBatch "plan-1").1.length
      + (parseFormularyCSV noAliasBatch "plan-1").2.length ≠ noAliasBatch.length := by
  decide

/-- C5 (amended): for every non-empty CSV batch whose headers contain an
alias of the drug-name column, the number of accepted rows plus the number
of reported errors equals the number of input rows. The excluded batches
are answered with a single batch-level row-0 error regardless of their
size (see the counterexample and C7). -/
theorem accepted_plus_errors_eq_rows (data : List CsvRow) (planId : String)
    (hne : data ≠ [])
    (hdrug : (mapColumns (headersOf data) "drugName").isSome = true) :
    (parseFormularyCSV data planId).1.length + (parseFormularyCSV data planId).2.length
      = data.length := by
  have hne2 : data.isEmpty = false := by
    cases data with
    | nil => cases hne rfl
    | cons a l => rfl
  have hd2 : (mapColumns (headersOf data) "drugName").isNone = false := by
    cases h : mapColumns (headersOf data) "drugName" with
    | none => rw [h] at hdrug; cases hdrug
    | some v => rfl
  simp [parseFormularyCSV, hne2, hd2]

/-- Witness for C5: a two-row batch with a drug-name column parses with
2 accepted rows and 0 errors. -/
theorem accepted_plus_errors_eq_rows_witness :
    okBatch ≠ []
    ∧ (mapColumns (headersOf okBatch) "drugName").isSome = true
    ∧ (parseFormularyCSV okBatch "plan-1").1.length
        + (parseFormularyCSV okBatch "plan-1").2.length = okBatch.length :=
  ⟨by decide, by decide, accepted_plus_errors_eq_rows okBatch "plan-1" (by decide) (by decide)⟩

/-- C7: for every batch whose headers contain no alias of the drug-name
column, the parser returns an empty accepted set and exactly one error
carrying row number 0, however many data rows the batch has. -/
theorem missing_drug_name_single_error (data : List CsvRow) (planId : String)
    (h : mapColumns (headersOf data) "drugName" = none) :
    (parseFormularyCSV data planId).1 = []
    ∧ (parseFormularyCSV data planId).2.length = 1
    ∧ ((parseFormularyCSV data planId).2.headD (1, "")).1 = 0 := by
  cases hd : data.isEmpty with
  | true => simp [parseFormularyCSV, hd]
  | false => simp [parseFormularyCSV, hd, h]

/-- Witness for C7: the two-row batch without a drug-name alias yields no
rows and a single row-0 error. -/
theorem missing_drug_name_single_error_witness :
    mapColumns (headersOf noAliasBatch) "drugName" = none
    ∧ (parseFormularyCSV noAliasBatch "plan-1").1 = []
    ∧ (parseFormularyCSV noAliasBatch "plan-1").2.length = 1
    ∧ ((parseFormularyCSV noAliasBatch "plan-1").2.headD (1, "")).1 = 0 :=
  ⟨by decide, missing_drug_name_single_error noAliasBatch "plan-1" (by decide)⟩

/-- C10: every accepted formulary row carries a numeric tier; a batch with
no tier column parses every row with tier 3, a tier cell that does not
parse as a number also yields 3, and no range check constrains the result:
the out-of-range tier 99 is accepted verbatim. -/
theorem tier_defaults_and_unrestricted :
    (∀ data planId r, mapColumns (headersOf data) "tier" = none →
        r ∈ (parseFormularyCSV data planId).1 → r.tier = 3)
    ∧ (∀ planId colMap row h, colMap "tier" = some h →
        parseNumber (cellAt row h) = none →
        (parseFormularyRow planId colMap row).tier = 3)
    ∧ (parseFormularyCSV tier99Batch "plan-1").1.map ParsedFormularyRow.tier = [99]
    ∧ (parseFormularyCSV tierTextBatch "plan-1").1.map ParsedFormularyRow.tier = [3] := by
  refine ⟨?_, ?_, by decide, by decide⟩
  · intro data planId r htier hr
    cases hd : data.isEmpty with
    | true => simp [parseFormularyCSV, hd] at hr
    | false =>
      cases hdrug : mapColumns (headersOf data) "drugName" with
      | none => simp [parseFormularyCSV, hd, hdrug] at hr
      | some hcol =>
        simp [parseFormularyCSV, hd, hdrug] at hr
        obtain ⟨row, hrow, rfl⟩ := hr
        simp [parseFormularyRow, htier, parseNumber]
  · intro planId colMap row h hcol hparse
    simp [parseFormularyRow, hcol, hparse]

/-- Witness for C10: the tier-less batch parses its row with tier 3, and a
non-numeric tier cell also yields 3. -/
theorem tier_defaults_and_unrestricted_witness :
    mapColumns (headersOf tierAbsentBatch) "tier" = none
    ∧ (parseFormularyRow "plan-1" (mapColumns (headersOf tierAbsentBatch))
        (tierAbsentBatch.headD []) ∈ (parseFormularyCSV tierAbsentBatch "plan-1").1)
    ∧ (parseFormularyRow "plan-1" (mapColumns (headersOf tierAbsentBatch))
        (tierAbsentBatch.headD [])).tier = 3
    ∧ mapColumns (headersOf tierTextBatch) "tier" = some "Tier"
    ∧ parseNumber (cellAt (tierTextBatch.headD []) "Tier") = none
    ∧ (parseFormularyRow "plan-1" (mapColumns (headersOf tierTextBatch))
        (tierTextBatch.headD [])).tier = 3 :=
  ⟨by decide, by decide,
    tier_defaults_and_unrestricted.1 tierAbsentBatch "plan-1" _ (by decide) (by decide),
    by decide, by decide,
    tier_defaults_and_unrestricted.2.1 "plan-1" (mapColumns (headersOf tierTextBatch))
      (tierTextBatch.headD []) "Tier" (by decide) (by decide)⟩

end Zest
